import Mathlib

set_option maxRecDepth 10000

/-!
Shallow embedding of the AI search-and-quiz application (`src/app.py`).
HTML documents are modelled as node trees, the HTTP layer as an abstract
fetch outcome, and the generative-text service as an oracle function.
-/

/-- An HTML node: either a text node or an element with a tag and children. -/
inductive Node where
  | text (s : String)
  | elem (tag : String) (children : List Node)

/-- A parsed HTML document is the forest of top-level nodes. -/
abbrev Doc := List Node

mutual
/-- `soup.find(t)` restricted to one subtree: first element with tag `t`
in document (pre-)order, the node itself included. -/
def findInNode (t : String) : Node → Option Node
  | .text _ => none
  | .elem tag cs =>
    if tag = t then some (.elem tag cs) else findInNodes t cs

/-- `soup.find(t)` over a forest of nodes. -/
def findInNodes (t : String) : List Node → Option Node
  | [] => none
  | n :: ns =>
    match findInNode t n with
    | some r => some r
    | none => findInNodes t ns
end

mutual
/-- All elements with tag `t` in a subtree, the node itself included. -/
def allTagNode (t : String) : Node → List Node
  | .text _ => []
  | .elem tag cs =>
    (if tag = t then [Node.elem tag cs] else []) ++ allTagNodes t cs

/-- All elements with tag `t` in a forest. -/
def allTagNodes (t : String) : List Node → List Node
  | [] => []
  | n :: ns => allTagNode t n ++ allTagNodes t ns
end

/-- `element.find_all(t, recursive=True)`: descendants only, self excluded. -/
def allTagIn (t : String) : Node → List Node
  | .text _ => []
  | .elem _ cs => allTagNodes t cs

mutual
/-- All descendant text-node strings of a node, in document order. -/
def textsOf : Node → List String
  | .text s => [s]
  | .elem _ cs => textsOfList cs

/-- All descendant text-node strings of a forest. -/
def textsOfList : List Node → List String
  | [] => []
  | n :: ns => textsOf n ++ textsOfList ns
end

/-- Python `str.strip()` whitespace characters. -/
def pyIsSpace (c : Char) : Bool :=
  c == ' ' || c == '\t' || c == '\n' || c == '\r' || c == '\x0b' || c == '\x0c'

/-- Drop leading characters satisfying `p` (Python `lstrip` with a char set). -/
def lstripWith (p : Char → Bool) (l : List Char) : List Char := l.dropWhile p

/-- Drop trailing characters satisfying `p` (Python `rstrip` with a char set). -/
def rstripWith (p : Char → Bool) (l : List Char) : List Char :=
  (l.reverse.dropWhile p).reverse

/-- Python `str.strip()` on a character list. -/
def pyStripL (l : List Char) : List Char :=
  rstripWith pyIsSpace (lstripWith pyIsSpace l)

/-- Python `str.strip()`. -/
def pyStrip (s : String) : String := String.mk (pyStripL s.toList)

/-- Python `s.startswith(p)`. -/
def pyStartsWith (s p : String) : Bool := p.toList.isPrefixOf s.toList

/-- `get_text(separator=sep, strip=True)`: strip each descendant string,
drop the ones that become empty, join with `sep`. -/
def getTextStrip (sep : String) (n : Node) : String :=
  String.intercalate sep (((textsOf n).map pyStrip).filter (fun s => s != ""))

/-- Python slicing `s[:n]`: the first `n` characters (code points). -/
def pyTake (s : String) (n : Nat) : String := String.mk (s.toList.take n)

/-- Outcome of the HTTP layer for one URL, as seen by `scrape_content`:
either `requests.get` + `raise_for_status` succeed and the body parses to a
document, or the request raises a `requests.RequestException` (connection
error, timeout, or non-success status via `raise_for_status`), or some
other exception is raised. -/
inductive FetchOutcome where
  | success (doc : Doc)
  | requestError
  | otherError

/-- The `requests.RequestException` failure message of `scrape_content`. -/
def fetchFailMsg (url : String) : String :=
  "コンテンツの取得に失敗しました: " ++ url

/-- The catch-all failure message of `scrape_content`. -/
def unexpectedErrMsg (url : String) : String :=
  "予期せぬエラーでコンテンツ取得に失敗しました: " ++ url

/-- `soup.find('main') or soup.find('article') or soup.body`. -/
def regionOf (doc : Doc) : Option Node :=
  match findInNodes "main" doc with
  | some m => some m
  | none =>
    match findInNodes "article" doc with
    | some a => some a
    | none => findInNodes "body" doc

/-- The newline-joined text of the region's paragraphs whose stripped text
is longer than 50 characters. -/
def paraContent (r : Node) : String :=
  String.intercalate "\n"
    (((allTagIn "p" r).map (getTextStrip "")).filter (fun s => 50 < s.length))

/-- `scrape_content` (src/app.py:21-45): fetch a URL and extract its main
text. On a request failure or any other exception the corresponding
failure message is returned; the function is total, it never raises. When
the document has no `main`, `article` or `body` element, `regionOf` is
`none`, `main_content.find_all` raises an `AttributeError` in the source,
and the catch-all branch returns `unexpectedErrMsg`. -/
def scrape_content (url : String) (outcome : FetchOutcome) : String :=
  match outcome with
  | .success doc =>
    match regionOf doc with
    | none => unexpectedErrMsg url
    | some main_content =>
      let content := paraContent main_content
      let content :=
        if content.length < 200 then getTextStrip "\n" main_content else content
      pyTake content 4000
  | .requestError => fetchFailMsg url
  | .otherError => unexpectedErrMsg url

/-- One search-provider result, as consumed by `get_summary`. -/
structure SearchResult where
  title : String
  href : String

/-- First failure marker tested by `get_summary` (src/app.py:57). -/
def failureMark1 : String := "コンテンツの取得に失敗"

/-- Second failure marker tested by `get_summary` (src/app.py:57). -/
def failureMark2 : String := "予期せぬエラー"

/-- `get_summary`'s per-source classification: `true` when the scraped
content is kept for the combined context, i.e. it starts with neither
failure marker. -/
def classifyContent (c : String) : Bool :=
  !(pyStartsWith c failureMark1) && !(pyStartsWith c failureMark2)

/-- Whether `c` is one of `scrape_content`'s two failure messages for
`url`, i.e. the extraction of `url` failed. -/
def isFailureResult (url c : String) : Bool :=
  c == fetchFailMsg url || c == unexpectedErrMsg url

/-- The labelled source block appended for the `i`-th (0-based) result. -/
def sourceBlock (i : Nat) (title content : String) : String :=
  "--- ソース " ++ toString (i + 1) ++ " (" ++ title ++ ") ---\n" ++ content ++ "\n\n"

/-- The scraping loop of `get_summary` (src/app.py:55-60), starting at
result index `i`: scrape each result and keep the block exactly when the
content is classified as kept. -/
def scrapedFrom (fetch : String → FetchOutcome) (i : Nat) :
    List SearchResult → List String
  | [] => []
  | r :: rs =>
    if classifyContent (scrape_content r.href (fetch r.href)) then
      sourceBlock i r.title (scrape_content r.href (fetch r.href))
        :: scrapedFrom fetch (i + 1) rs
    else
      scrapedFrom fetch (i + 1) rs

/-- The `scraped_contents` list accumulated by `get_summary`. -/
def scraped_contents (results : List SearchResult)
    (fetch : String → FetchOutcome) : List String :=
  scrapedFrom fetch 0 results

/-- The summarization prompt template of `get_summary` (src/app.py:67-82). -/
def mkPrompt (query ctx : String) : String :=
  "\n    ユーザーの検索クエリと、Webから収集した以下の情報を基に、包括的で分かりやすい要約を作成してください。\n\n    # 検索クエリ:\n    "
    ++ query
    ++ "\n\n    # Webからの収集情報:\n    "
    ++ ctx
    ++ "\n\n    # 生成する要約のルール:\n    - マークダウン形式を使用して、重要なポイントを箇条書きで整理してください。\n    - 専門用語には簡単な説明を加えてください。\n    - 全体として、中立的かつ客観的な視点で記述してください。\n\n    # 要約:\n    "

/-- Message returned when every source was dropped (src/app.py:65). -/
def totalFailureMsg : String :=
  "すべてのソースからコンテンツを取得できませんでした。別のキーワードで試すか、時間をおいて再度実行してください。"

/-- Summary-generation failure message (src/app.py:87). -/
def genErrMsg (e : String) : String :=
  "要約の生成中にエラーが発生しました: " ++ e

/-- Result of one `get_summary` run: the returned summary text and how many
times the generative-text service was called during the run. -/
structure SummaryOutcome where
  summary : String
  genCalls : Nat
deriving DecidableEq

/-- `get_summary` (src/app.py:47-87). The generative-text service is the
oracle `gen`: `Except.ok` is a normal `response.text`, `Except.error e`
models `model.generate_content` raising an exception with message `e`. -/
def get_summary (query : String) (results : List SearchResult)
    (fetch : String → FetchOutcome) (gen : String → Except String String) :
    SummaryOutcome :=
  let sc := scraped_contents results fetch
  if sc = [] then
    ⟨totalFailureMsg, 0⟩
  else
    match gen (mkPrompt query (String.join sc)) with
    | .ok t => ⟨t, 1⟩
    | .error e => ⟨genErrMsg e, 1⟩

/-- A parsed JSON value, as produced by `json.loads`. In an object the
keys are unique, as they are in a Python dict. -/
inductive JValue where
  | null
  | bool (b : Bool)
  | num (n : Int)
  | str (s : String)
  | arr (elems : List JValue)
  | obj (fields : List (String × JValue))

/-- The backtick character. -/
def backtickChar : Char := '\x60'

/-- The opening curly-brace character. -/
def braceOpen : Char := '\x7b'

/-- The closing curly-brace character. -/
def braceClose : Char := '\x7d'

/-- The character set stripped from the left by `lstrip("```json")`. -/
def fenceChars : List Char := ['\x60', 'j', 's', 'o', 'n']

/-- The response cleaning of `generate_quiz` (src/app.py:114):
`text.strip().lstrip("```json").rstrip("```").strip()`. Python `lstrip` and
`rstrip` with an argument strip a character *set*, not a literal. -/
def pyClean (s : String) : String :=
  let l0 := pyStripL s.toList
  let l1 := lstripWith (fun c => fenceChars.contains c) l0
  let l2 := rstripWith (fun c => c == backtickChar) l1
  String.mk (pyStripL l2)

/-- Whether `needle` occurs as a contiguous sublist of the second list. -/
def hasSubList (needle : List Char) : List Char → Bool
  | [] => needle.isEmpty
  | c :: t => needle.isPrefixOf (c :: t) || hasSubList needle t

/-- Python `k in j` for a string `k`: key lookup in a dict, element
equality in a list, substring test in a string; `none` models a raised
`TypeError` on the remaining values. -/
def pyIn (k : String) : JValue → Option Bool
  | .obj fs => some (fs.any (fun f => f.1 == k))
  | .arr es =>
    some (es.any (fun e => match e with | .str t => t == k | _ => false))
  | .str t => some (hasSubList k.toList t.toList)
  | _ => none

/-- Python `j[k]` for a string key `k`: dict lookup; `none` models a raised
exception (string indices / list indices must be integers, etc.). -/
def pyGetItem (j : JValue) (k : String) : Option JValue :=
  match j with
  | .obj fs => (fs.find? (fun f => f.1 == k)).map (fun f => f.2)
  | _ => none

/-- Python `len(j)`: defined for dict, list and string; `none` models a
raised `TypeError` for the other values. -/
def pyLen : JValue → Option Nat
  | .obj fs => some fs.length
  | .arr es => some es.length
  | .str s => some s.length
  | _ => none

/-- `all(k in quiz_data for k in ["question", "options", "answer",
"explanation"])`, with Python's short-circuit evaluation; `none` models a
raised exception. -/
def allKeysIn (j : JValue) : Option Bool :=
  match pyIn "question" j with
  | none => none
  | some false => some false
  | some true =>
    match pyIn "options" j with
    | none => none
    | some false => some false
    | some true =>
      match pyIn "answer" j with
      | none => none
      | some false => some false
      | some true => pyIn "explanation" j

/-- The shape validation of `generate_quiz` (src/app.py:116):
`all(...) and len(quiz_data["options"]) == 4`; `none` models a raised
exception, which the source's `except Exception` turns into `None`. -/
def quizCheckResult (j : JValue) : Option Bool :=
  match allKeysIn j with
  | none => none
  | some false => some false
  | some true =>
    match pyGetItem j "options" with
    | none => none
    | some opts =>
      match pyLen opts with
      | none => none
      | some l => some (l == 4)

/-- `generate_quiz` (src/app.py:89-121). The generative-text service is
the oracle `genOutcome` (`Except.error` models a raised exception) and
`json.loads` is the external boundary `jsonParse` (`none` models a raised
`json.JSONDecodeError`). Any exception inside the `try` yields `none`. -/
def generate_quiz (genOutcome : Except String String)
    (jsonParse : String → Option JValue) : Option JValue :=
  match genOutcome with
  | .error _ => none
  | .ok text =>
    match jsonParse (pyClean text) with
    | none => none
    | some quiz_data =>
      match quizCheckResult quiz_data with
      | some true => some quiz_data
      | _ => none

/-- One completed search-and-summarize run (src/app.py:172-175). -/
structure HistoryItem where
  query : String
  summary : String
  sources : List SearchResult

/-- The per-session state: `st.session_state.search_history` and
`st.session_state.quizzes` (a dict from history index to quiz, modelled as
an association list read through `List.lookup`). -/
structure SessionState where
  search_history : List HistoryItem
  quizzes : List (Nat × JValue)

/-- The empty session state (src/app.py:128-131). -/
def initialState : SessionState := ⟨[], []⟩

/-- A state-changing user action: a completed search (src/app.py:176
`search_history.insert(0, history_item)`), or a quiz-generation attempt
for history index `i` whose `generate_quiz` result is `result`
(src/app.py:212-214: the quiz is stored under `i` only when generation
succeeded). -/
inductive Event where
  | search (item : HistoryItem)
  | genQuiz (i : Nat) (result : Option JValue)

/-- One step of the session-state machine (src/app.py:176,212-214). -/
def step (s : SessionState) : Event → SessionState
  | .search item => ⟨item :: s.search_history, s.quizzes⟩
  | .genQuiz i result =>
    match result with
    | some quiz => ⟨s.search_history, (i, quiz) :: s.quizzes⟩
    | none => s

/-! ### Helper lemmas -/

theorem lstripWith_cons_false (p : Char → Bool) (c : Char) (l : List Char)
    (h : p c = false) : lstripWith p (c :: l) = c :: l := by
  simp [lstripWith, List.dropWhile_cons, h]

theorem lstripWith_cons_true (p : Char → Bool) (c : Char) (l : List Char)
    (h : p c = true) : lstripWith p (c :: l) = lstripWith p l := by
  simp [lstripWith, List.dropWhile_cons, h]

theorem rstripWith_append_false (p : Char → Bool) (l : List Char) (c : Char)
    (h : p c = false) : rstripWith p (l ++ [c]) = l ++ [c] := by
  simp [rstripWith, List.dropWhile_cons, h]

theorem rstripWith_append_true (p : Char → Bool) (l : List Char) (c : Char)
    (h : p c = true) : rstripWith p (l ++ [c]) = rstripWith p l := by
  simp [rstripWith, List.dropWhile_cons, h]

theorem pyStartsWith_append (pre rest : String) :
    pyStartsWith (pre ++ rest) pre = true := by
  show pre.data.isPrefixOf (pre.data ++ rest.data) = true
  simp [List.isPrefixOf_iff_prefix]

theorem pyStartsWith_fetchFailMsg (url : String) :
    pyStartsWith (fetchFailMsg url) failureMark1 = true := by
  have h1 : fetchFailMsg url = failureMark1 ++ ("しました: " ++ url) := by
    show "コンテンツの取得に失敗しました: " ++ url = _
    rw [← String.append_assoc]
    have h2 : ("コンテンツの取得に失敗しました: " : String) = failureMark1 ++ "しました: " := by
      decide
    rw [h2]
  rw [h1]
  exact pyStartsWith_append _ _

theorem pyStartsWith_unexpectedErrMsg (url : String) :
    pyStartsWith (unexpectedErrMsg url) failureMark2 = true := by
  have h1 : unexpectedErrMsg url = failureMark2 ++ ("でコンテンツ取得に失敗しました: " ++ url) := by
    show "予期せぬエラーでコンテンツ取得に失敗しました: " ++ url = _
    rw [← String.append_assoc]
    have h2 : ("予期せぬエラーでコンテンツ取得に失敗しました: " : String)
        = failureMark2 ++ "でコンテンツ取得に失敗しました: " := by decide
    rw [h2]
  rw [h1]
  exact pyStartsWith_append _ _

theorem classify_fetchFailMsg (url : String) :
    classifyContent (fetchFailMsg url) = false := by
  simp [classifyContent, pyStartsWith_fetchFailMsg url]

theorem classify_unexpectedErrMsg (url : String) :
    classifyContent (unexpectedErrMsg url) = false := by
  simp [classifyContent, pyStartsWith_unexpectedErrMsg url]

theorem classify_of_isFailureResult (url c : String)
    (h : isFailureResult url c = true) : classifyContent c = false := by
  rcases (by simpa [isFailureResult] using h : c = fetchFailMsg url ∨ c = unexpectedErrMsg url)
      with h1 | h1
  · rw [h1]; exact classify_fetchFailMsg url
  · rw [h1]; exact classify_unexpectedErrMsg url

theorem scrapedFrom_eq_nil_iff (fetch : String → FetchOutcome) (i : Nat)
    (rs : List SearchResult) :
    scrapedFrom fetch i rs = [] ↔
      ∀ r ∈ rs, classifyContent (scrape_content r.href (fetch r.href)) = false := by
  induction rs generalizing i with
  | nil => simp [scrapedFrom]
  | cons r rs ih =>
    cases hc : classifyContent (scrape_content r.href (fetch r.href)) with
    | true => simp [scrapedFrom, hc]
    | false => simp [scrapedFrom, hc, ih]

theorem get_summary_genCalls_eq_zero_iff (query : String)
    (results : List SearchResult) (fetch : String → FetchOutcome)
    (gen : String → Except String String) :
    (get_summary query results fetch gen).genCalls = 0 ↔
      scraped_contents results fetch = [] := by
  by_cases h : scraped_contents results fetch = []
  · simp [get_summary, h]
  · simp only [get_summary, h, if_false]
    cases gen (mkPrompt query (String.join (scraped_contents results fetch))) <;> simp [h]

theorem lstripWith_append_all_true (p : Char → Bool) (m l : List Char)
    (h : ∀ c ∈ m, p c = true) : lstripWith p (m ++ l) = lstripWith p l := by
  induction m with
  | nil => rfl
  | cons c m' ih =>
    rw [List.cons_append, lstripWith_cons_true p c _ (h c (by simp))]
    exact ih (fun c hc => h c (by simp [hc]))

theorem rstripWith_append_all_true (p : Char → Bool) (l m : List Char)
    (h : ∀ c ∈ m, p c = true) : rstripWith p (l ++ m) = rstripWith p l := by
  induction m generalizing l with
  | nil => simp
  | cons c m' ih =>
    have hsplit : l ++ c :: m' = (l ++ [c]) ++ m' := by simp
    rw [hsplit, ih (l ++ [c]) (fun d hd => h d (by simp [hd])),
      rstripWith_append_true p l c (h c (by simp))]

theorem pyStripL_nospace_ends (c d : Char) (l : List Char)
    (hc : pyIsSpace c = false) (hd : pyIsSpace d = false) :
    pyStripL (c :: (l ++ [d])) = c :: (l ++ [d]) := by
  rw [pyStripL, lstripWith_cons_false _ _ _ hc]
  have h : c :: (l ++ [d]) = (c :: l) ++ [d] := rfl
  rw [h, rstripWith_append_false _ _ _ hd]

theorem pyStripL_brace_shape (s : String) (mid : List Char)
    (hs : s.toList = braceOpen :: (mid ++ [braceClose])) :
    pyStripL s.toList = s.toList := by
  rw [hs]
  exact pyStripL_nospace_ends _ _ _ (by decide) (by decide)

theorem pyClean_brace_shape (s : String) (mid : List Char)
    (hs : s.toList = braceOpen :: (mid ++ [braceClose])) : pyClean s = s := by
  have h0 : pyStripL s.toList = s.toList := pyStripL_brace_shape s mid hs
  have h1 : lstripWith (fun c => fenceChars.contains c) s.toList = s.toList := by
    rw [hs]; exact lstripWith_cons_false _ _ _ (by decide)
  have h2 : rstripWith (fun c => c == backtickChar) s.toList = s.toList := by
    rw [hs]
    have e : braceOpen :: (mid ++ [braceClose]) = (braceOpen :: mid) ++ [braceClose] := rfl
    rw [e]
    exact rstripWith_append_false _ _ _ (by decide)
  simp only [pyClean, h0, h1, h2]
  rfl

theorem pyClean_fenced (s : String) (mid : List Char)
    (hs : s.toList = braceOpen :: (mid ++ [braceClose])) :
    pyClean ("```json\n" ++ s ++ "\n```") = s := by
  have hl : ("```json\n" ++ s ++ "\n```").toList
      = '\x60' :: '\x60' :: '\x60' :: 'j' :: 's' :: 'o' :: 'n' :: '\n'
          :: (s.toList ++ ['\n', '\x60', '\x60', '\x60']) := rfl
  have hA : pyStripL ('\x60' :: '\x60' :: '\x60' :: 'j' :: 's' :: 'o' :: 'n' :: '\n'
        :: (s.toList ++ ['\n', '\x60', '\x60', '\x60']))
      = '\x60' :: '\x60' :: '\x60' :: 'j' :: 's' :: 'o' :: 'n' :: '\n'
        :: (s.toList ++ ['\n', '\x60', '\x60', '\x60']) := by
    rw [pyStripL, lstripWith_cons_false _ _ _ (by decide)]
    have e : ('\x60' :: '\x60' :: '\x60' :: 'j' :: 's' :: 'o' :: 'n' :: '\n'
          :: (s.toList ++ ['\n', '\x60', '\x60', '\x60']))
        = ('\x60' :: '\x60' :: '\x60' :: 'j' :: 's' :: 'o' :: 'n' :: '\n'
          :: (s.toList ++ ['\n', '\x60', '\x60'])) ++ ['\x60'] := by simp
    rw [e, rstripWith_append_false _ _ _ (by decide), ← e]
  have hB : lstripWith (fun c => fenceChars.contains c)
        ('\x60' :: '\x60' :: '\x60' :: 'j' :: 's' :: 'o' :: 'n' :: '\n'
          :: (s.toList ++ ['\n', '\x60', '\x60', '\x60']))
      = '\n' :: (s.toList ++ ['\n', '\x60', '\x60', '\x60']) := by
    have e : ('\x60' :: '\x60' :: '\x60' :: 'j' :: 's' :: 'o' :: 'n' :: '\n'
          :: (s.toList ++ ['\n', '\x60', '\x60', '\x60']))
        = ['\x60', '\x60', '\x60', 'j', 's', 'o', 'n']
            ++ ('\n' :: (s.toList ++ ['\n', '\x60', '\x60', '\x60'])) := rfl
    rw [e, lstripWith_append_all_true _ _ _ (by decide),
      lstripWith_cons_false _ _ _ (by decide)]
  have hC : rstripWith (fun c => c == backtickChar)
        ('\n' :: (s.toList ++ ['\n', '\x60', '\x60', '\x60']))
      = '\n' :: (s.toList ++ ['\n']) := by
    have e : '\n' :: (s.toList ++ ['\n', '\x60', '\x60', '\x60'])
        = ('\n' :: (s.toList ++ ['\n'])) ++ ['\x60', '\x60', '\x60'] := by simp
    rw [e, rstripWith_append_all_true _ _ _ (by decide)]
    have e2 : '\n' :: (s.toList ++ ['\n']) = ('\n' :: s.toList) ++ ['\n'] := by simp
    rw [e2, rstripWith_append_false _ _ _ (by decide), ← e2]
  have hD : pyStripL ('\n' :: (s.toList ++ ['\n'])) = s.toList := by
    rw [pyStripL, lstripWith_cons_true _ _ _ (by decide), hs, List.cons_append,
      lstripWith_cons_false _ _ _ (by decide)]
    have e : braceOpen :: ((mid ++ [braceClose]) ++ ['\n'])
        = (braceOpen :: (mid ++ [braceClose])) ++ ['\n'] := by simp
    rw [e, rstripWith_append_true _ _ _ (by decide)]
    have e2 : braceOpen :: (mid ++ [braceClose]) = (braceOpen :: mid) ++ [braceClose] := rfl
    rw [e2, rstripWith_append_false _ _ _ (by decide), ← e2]
  simp only [pyClean, hl, hA, hB, hC, hD]
  rfl

/-! ### Claim theorems -/

/-- C1: If every extraction in a pipeline run fails, `get_summary` returns
the distinguished "nothing could be fetched" summary with zero calls to
the generative-text service; and in every run the generative service is
invoked only when at least one extraction succeeded (returned something
other than a `scrape_content` failure message). -/
theorem get_summary_total_extraction_failure (query : String)
    (results : List SearchResult) (fetch : String → FetchOutcome)
    (gen : String → Except String String) :
    (results.all
        (fun r => isFailureResult r.href (scrape_content r.href (fetch r.href))) = true →
      get_summary query results fetch gen = ⟨totalFailureMsg, 0⟩) ∧
    ((get_summary query results fetch gen).genCalls ≠ 0 →
      results.any
        (fun r => !(isFailureResult r.href (scrape_content r.href (fetch r.href)))) = true) := by
  constructor
  · intro h
    have hnil : scraped_contents results fetch = [] := by
      rw [scraped_contents, scrapedFrom_eq_nil_iff]
      intro r hr
      exact classify_of_isFailureResult _ _ (List.all_eq_true.mp h r hr)
    simp [get_summary, hnil]
  · intro hcalls
    have hne : scraped_contents results fetch ≠ [] := by
      intro hnil
      exact hcalls ((get_summary_genCalls_eq_zero_iff query results fetch gen).mpr hnil)
    rw [scraped_contents] at hne
    have hx : ¬ ∀ r ∈ results,
        classifyContent (scrape_content r.href (fetch r.href)) = false := by
      intro hall
      exact hne ((scrapedFrom_eq_nil_iff fetch 0 results).mpr hall)
    push_neg at hx
    rcases hx with ⟨r, hr, hcl⟩
    have hcl' : classifyContent (scrape_content r.href (fetch r.href)) = true := by
      simpa using hcl
    refine List.any_eq_true.mpr ⟨r, hr, ?_⟩
    cases hf : isFailureResult r.href (scrape_content r.href (fetch r.href)) with
    | false => rfl
    | true =>
      have hc := classify_of_isFailureResult _ _ hf
      rw [hcl'] at hc
      exact absurd hc (by decide)

/-- Witness for C1 at concrete inputs: a run where the only fetch fails
with a request error yields the distinguished summary and zero calls, and
a run that makes a generative call has a successfully extracted source. -/
theorem get_summary_total_extraction_failure_witness :
    get_summary "q" [⟨"t", "u"⟩] (fun _ => FetchOutcome.requestError)
        (fun _ => Except.ok "s") = ⟨totalFailureMsg, 0⟩ ∧
    List.any [({ title := "t", href := "u" } : SearchResult)]
      (fun r => !(isFailureResult r.href (scrape_content r.href
        ((fun _ => FetchOutcome.success [Node.elem "body" [Node.text "hello"]]) r.href))))
      = true := by
  refine ⟨?_, ?_⟩
  · exact (get_summary_total_extraction_failure "q" [⟨"t", "u"⟩]
      (fun _ => FetchOutcome.requestError) (fun _ => Except.ok "s")).1 (by decide)
  · exact (get_summary_total_extraction_failure "q" [⟨"t", "u"⟩]
      (fun _ => FetchOutcome.success [Node.elem "body" [Node.text "hello"]])
      (fun _ => Except.ok "s")).2 (by decide)

/-- C4: `scrape_content` is a total function (it never raises past its
boundary), and whenever the HTTP layer reports a request failure — a
non-2xx status surfaced by `raise_for_status` or a connection error — the
result is the Failed message, which is the failure text followed by the
URL itself (so the reason contains the URL), and it is classified as
failed by the pipeline. -/
theorem scrape_content_request_error_failed (url : String) :
    scrape_content url FetchOutcome.requestError = fetchFailMsg url ∧
    fetchFailMsg url = "コンテンツの取得に失敗しました: " ++ url ∧
    classifyContent (scrape_content url FetchOutcome.requestError) = false := by
  exact ⟨rfl, rfl, classify_fetchFailMsg url⟩

/-- C9: if the generative-text service call during summarization raises
with message `e` while at least one source was scraped, `get_summary`
returns the error message as the summary body instead of raising. -/
theorem get_summary_gen_error (query : String) (results : List SearchResult)
    (fetch : String → FetchOutcome) (e : String)
    (gen : String → Except String String)
    (hgen : ∀ p, gen p = Except.error e)
    (hne : scraped_contents results fetch ≠ []) :
    get_summary query results fetch gen = ⟨genErrMsg e, 1⟩ := by
  simp [get_summary, hne, hgen]

/-- Witness for C9 at a concrete run with one successfully scraped source
and a failing generative call. -/
theorem get_summary_gen_error_witness :
    get_summary "q" [⟨"t", "u"⟩]
      (fun _ => FetchOutcome.success [Node.elem "body" [Node.text "hello"]])
      (fun _ => Except.error "boom") = ⟨genErrMsg "boom", 1⟩ :=
  get_summary_gen_error "q" [⟨"t", "u"⟩]
    (fun _ => FetchOutcome.success [Node.elem "body" [Node.text "hello"]])
    "boom" (fun _ => Except.error "boom") (fun _ => rfl) (by decide)

/-- C10: `get_summary` classifies an extraction as failed by testing
whether the text starts with one of the two literal failure markers, so a
source whose page was fetched successfully but whose extracted text
happens to begin with one of those markers is dropped from the combined
context as if extraction had failed. -/
theorem scrape_success_marker_excluded (url title : String) (doc : Doc)
    (h : pyStartsWith (scrape_content url (FetchOutcome.success doc)) failureMark1 = true ∨
      pyStartsWith (scrape_content url (FetchOutcome.success doc)) failureMark2 = true) :
    classifyContent (scrape_content url (FetchOutcome.success doc)) = false ∧
    scraped_contents [⟨title, url⟩] (fun _ => FetchOutcome.success doc) = [] := by
  have hcl : classifyContent (scrape_content url (FetchOutcome.success doc)) = false := by
    rcases h with h | h <;> simp [classifyContent, h]
  refine ⟨hcl, ?_⟩
  simp [scraped_contents, scrapedFrom, hcl]

/-- Witness for C10: a page whose genuine body text starts with the first
failure marker is fetched successfully yet contributes nothing. -/
theorem scrape_success_marker_excluded_witness :
    classifyContent (scrape_content "u" (FetchOutcome.success
      [Node.elem "body" [Node.text "コンテンツの取得に失敗する理由の解説"]])) = false ∧
    scraped_contents [⟨"t", "u"⟩] (fun _ => FetchOutcome.success
      [Node.elem "body" [Node.text "コンテンツの取得に失敗する理由の解説"]]) = [] :=
  scrape_success_marker_excluded "u" "t"
    [Node.elem "body" [Node.text "コンテンツの取得に失敗する理由の解説"]]
    (Or.inl (by decide))

/-- C3 counterexample: a URL whose HTTP response is successful but whose
body is empty (the parsed document has no nodes, hence no `body` element)
makes `scrape_content` return the unexpected-error Failed message — a
non-empty string classified as failed — not an empty-string success. -/
theorem scrape_content_empty_body_cex :
    scrape_content "http://e" (FetchOutcome.success []) = unexpectedErrMsg "http://e" ∧
    scrape_content "http://e" (FetchOutcome.success []) ≠ "" ∧
    classifyContent (scrape_content "http://e" (FetchOutcome.success [])) = false := by
  decide

/-- C3 (amended): for a URL whose HTTP response is successful and whose
parsed HTML contains a `main`, `article` or `body` region, if neither the
paragraph extraction nor the whole-region text yields any text then
`scrape_content` returns the empty string, which the pipeline classifies
as a success; whereas a successful response whose document has none of
those elements (e.g. an entirely empty body) yields the unexpected-error
Failed message. -/
theorem scrape_content_empty_success (url : String) (doc : Doc) (r : Node)
    (h1 : regionOf doc = some r) (h2 : paraContent r = "")
    (h3 : getTextStrip "\n" r = "") :
    scrape_content url (FetchOutcome.success doc) = "" ∧
    classifyContent "" = true ∧
    scrape_content url (FetchOutcome.success []) = unexpectedErrMsg url := by
  refine ⟨?_, by decide, rfl⟩
  simp [scrape_content, h1, h2, h3, pyTake]

/-- Witness for the amended C3 at a document whose body element is empty. -/
theorem scrape_content_empty_success_witness :
    scrape_content "u" (FetchOutcome.success [Node.elem "body" []]) = "" ∧
    classifyContent "" = true ∧
    scrape_content "u" (FetchOutcome.success []) = unexpectedErrMsg "u" :=
  scrape_content_empty_success "u" [Node.elem "body" []] (Node.elem "body" [])
    rfl rfl rfl

/-- C5: for a successfully fetched document with a detected content
region, `scrape_content` falls back to whole-region text extraction
exactly when the concatenated paragraph text is shorter than 200
characters — the branch taken is a function of that length alone. -/
theorem scrape_content_fallback_threshold (url : String) (doc : Doc) (r : Node)
    (h : regionOf doc = some r) :
    scrape_content url (FetchOutcome.success doc)
      = pyTake (if (paraContent r).length < 200
          then getTextStrip "\n" r else paraContent r) 4000 := by
  simp [scrape_content, h]

/-- Witness for C5 at a document with one 60-character paragraph (the
paragraph text is shorter than 200, so the fallback branch is taken). -/
theorem scrape_content_fallback_threshold_witness :
    scrape_content "u" (FetchOutcome.success
      [Node.elem "main" [Node.elem "p"
        [Node.text "aaaaaaaaaaaaaaaaaaaaaaaaaaaaaaaaaaaaaaaaaaaaaaaaaaaaaaaaaaaa"]]])
      = pyTake (if (paraContent (Node.elem "main" [Node.elem "p"
            [Node.text "aaaaaaaaaaaaaaaaaaaaaaaaaaaaaaaaaaaaaaaaaaaaaaaaaaaaaaaaaaaa"]])).length < 200
          then getTextStrip "\n" (Node.elem "main" [Node.elem "p"
            [Node.text "aaaaaaaaaaaaaaaaaaaaaaaaaaaaaaaaaaaaaaaaaaaaaaaaaaaaaaaaaaaa"]])
          else paraContent (Node.elem "main" [Node.elem "p"
            [Node.text "aaaaaaaaaaaaaaaaaaaaaaaaaaaaaaaaaaaaaaaaaaaaaaaaaaaaaaaaaaaa"]])) 4000 :=
  scrape_content_fallback_threshold "u"
    [Node.elem "main" [Node.elem "p"
      [Node.text "aaaaaaaaaaaaaaaaaaaaaaaaaaaaaaaaaaaaaaaaaaaaaaaaaaaaaaaaaaaa"]]]
    (Node.elem "main" [Node.elem "p"
      [Node.text "aaaaaaaaaaaaaaaaaaaaaaaaaaaaaaaaaaaaaaaaaaaaaaaaaaaaaaaaaaaa"]])
    rfl

/-- C6: the content region is chosen by trying `main`, then `article`,
then `body`, first hit wins; and (here stated for runs that do not hit
the sparse-text fallback) the extracted content is exactly the
newline-joined paragraph texts whose stripped length exceeds 50. -/
theorem scrape_region_order_and_filter (url : String) (doc : Doc) (r : Node)
    (h : regionOf doc = some r) (hlen : 200 ≤ (paraContent r).length) :
    ((findInNodes "main" doc).isSome = true → regionOf doc = findInNodes "main" doc) ∧
    (findInNodes "main" doc = none → (findInNodes "article" doc).isSome = true →
      regionOf doc = findInNodes "article" doc) ∧
    (findInNodes "main" doc = none → findInNodes "article" doc = none →
      regionOf doc = findInNodes "body" doc) ∧
    scrape_content url (FetchOutcome.success doc)
      = pyTake (String.intercalate "\n"
          (((allTagIn "p" r).map (getTextStrip "")).filter (fun s => 50 < s.length))) 4000 := by
  refine ⟨?_, ?_, ?_, ?_⟩
  · intro hm
    cases hfm : findInNodes "main" doc with
    | none => rw [hfm] at hm; simp at hm
    | some m => simp [regionOf, hfm]
  · intro hm ha
    cases hfa : findInNodes "article" doc with
    | none => rw [hfa] at ha; simp at ha
    | some a => simp [regionOf, hm, hfa]
  · intro hm ha
    simp [regionOf, hm, ha]
  · have hnot : ¬ (paraContent r).length < 200 := Nat.not_lt.mpr hlen
    simp only [scrape_content, h]
    rw [if_neg hnot]
    simp [paraContent]

/-- Witness for C6 at a document whose `main` element holds one
210-character paragraph, so no fallback triggers. -/
theorem scrape_region_order_and_filter_witness :
    ((findInNodes "main" [Node.elem "main" [Node.elem "p"
        [Node.text "bbbbbbbbbbbbbbbbbbbbbbbbbbbbbbbbbbbbbbbbbbbbbbbbbbbbbbbbbbbbbbbbbbbbbbbbbbbbbbbbbbbbbbbbbbbbbbbbbbbbbbbbbbbbbbbbbbbbbbbbbbbbbbbbbbbbbbbbbbbbbbbbbbbbbbbbbbbbbbbbbbbbbbbbbbbbbbbbbbbbbbbbbbbbbbbbbbbbbbbbbbbbbbbb"]]]).isSome = true →
      regionOf [Node.elem "main" [Node.elem "p"
        [Node.text "bbbbbbbbbbbbbbbbbbbbbbbbbbbbbbbbbbbbbbbbbbbbbbbbbbbbbbbbbbbbbbbbbbbbbbbbbbbbbbbbbbbbbbbbbbbbbbbbbbbbbbbbbbbbbbbbbbbbbbbbbbbbbbbbbbbbbbbbbbbbbbbbbbbbbbbbbbbbbbbbbbbbbbbbbbbbbbbbbbbbbbbbbbbbbbbbbbbbbbbbbbbbbbbb"]]]
        = findInNodes "main" [Node.elem "main" [Node.elem "p"
        [Node.text "bbbbbbbbbbbbbbbbbbbbbbbbbbbbbbbbbbbbbbbbbbbbbbbbbbbbbbbbbbbbbbbbbbbbbbbbbbbbbbbbbbbbbbbbbbbbbbbbbbbbbbbbbbbbbbbbbbbbbbbbbbbbbbbbbbbbbbbbbbbbbbbbbbbbbbbbbbbbbbbbbbbbbbbbbbbbbbbbbbbbbbbbbbbbbbbbbbbbbbbbbbbbbbbb"]]]) ∧
    (findInNodes "main" [Node.elem "main" [Node.elem "p"
        [Node.text "bbbbbbbbbbbbbbbbbbbbbbbbbbbbbbbbbbbbbbbbbbbbbbbbbbbbbbbbbbbbbbbbbbbbbbbbbbbbbbbbbbbbbbbbbbbbbbbbbbbbbbbbbbbbbbbbbbbbbbbbbbbbbbbbbbbbbbbbbbbbbbbbbbbbbbbbbbbbbbbbbbbbbbbbbbbbbbbbbbbbbbbbbbbbbbbbbbbbbbbbbbbbbbbb"]]] = none →
      (findInNodes "article" [Node.elem "main" [Node.elem "p"
        [Node.text "bbbbbbbbbbbbbbbbbbbbbbbbbbbbbbbbbbbbbbbbbbbbbbbbbbbbbbbbbbbbbbbbbbbbbbbbbbbbbbbbbbbbbbbbbbbbbbbbbbbbbbbbbbbbbbbbbbbbbbbbbbbbbbbbbbbbbbbbbbbbbbbbbbbbbbbbbbbbbbbbbbbbbbbbbbbbbbbbbbbbbbbbbbbbbbbbbbbbbbbbbbbbbbbb"]]]).isSome = true →
      regionOf [Node.elem "main" [Node.elem "p"
        [Node.text "bbbbbbbbbbbbbbbbbbbbbbbbbbbbbbbbbbbbbbbbbbbbbbbbbbbbbbbbbbbbbbbbbbbbbbbbbbbbbbbbbbbbbbbbbbbbbbbbbbbbbbbbbbbbbbbbbbbbbbbbbbbbbbbbbbbbbbbbbbbbbbbbbbbbbbbbbbbbbbbbbbbbbbbbbbbbbbbbbbbbbbbbbbbbbbbbbbbbbbbbbbbbbbbb"]]]
        = findInNodes "article" [Node.elem "main" [Node.elem "p"
        [Node.text "bbbbbbbbbbbbbbbbbbbbbbbbbbbbbbbbbbbbbbbbbbbbbbbbbbbbbbbbbbbbbbbbbbbbbbbbbbbbbbbbbbbbbbbbbbbbbbbbbbbbbbbbbbbbbbbbbbbbbbbbbbbbbbbbbbbbbbbbbbbbbbbbbbbbbbbbbbbbbbbbbbbbbbbbbbbbbbbbbbbbbbbbbbbbbbbbbbbbbbbbbbbbbbbb"]]]) ∧
    (findInNodes "main" [Node.elem "main" [Node.elem "p"
        [Node.text "bbbbbbbbbbbbbbbbbbbbbbbbbbbbbbbbbbbbbbbbbbbbbbbbbbbbbbbbbbbbbbbbbbbbbbbbbbbbbbbbbbbbbbbbbbbbbbbbbbbbbbbbbbbbbbbbbbbbbbbbbbbbbbbbbbbbbbbbbbbbbbbbbbbbbbbbbbbbbbbbbbbbbbbbbbbbbbbbbbbbbbbbbbbbbbbbbbbbbbbbbbbbbbbb"]]] = none →
      findInNodes "article" [Node.elem "main" [Node.elem "p"
        [Node.text "bbbbbbbbbbbbbbbbbbbbbbbbbbbbbbbbbbbbbbbbbbbbbbbbbbbbbbbbbbbbbbbbbbbbbbbbbbbbbbbbbbbbbbbbbbbbbbbbbbbbbbbbbbbbbbbbbbbbbbbbbbbbbbbbbbbbbbbbbbbbbbbbbbbbbbbbbbbbbbbbbbbbbbbbbbbbbbbbbbbbbbbbbbbbbbbbbbbbbbbbbbbbbbbb"]]] = none →
      regionOf [Node.elem "main" [Node.elem "p"
        [Node.text "bbbbbbbbbbbbbbbbbbbbbbbbbbbbbbbbbbbbbbbbbbbbbbbbbbbbbbbbbbbbbbbbbbbbbbbbbbbbbbbbbbbbbbbbbbbbbbbbbbbbbbbbbbbbbbbbbbbbbbbbbbbbbbbbbbbbbbbbbbbbbbbbbbbbbbbbbbbbbbbbbbbbbbbbbbbbbbbbbbbbbbbbbbbbbbbbbbbbbbbbbbbbbbbb"]]]
        = findInNodes "body" [Node.elem "main" [Node.elem "p"
        [Node.text "bbbbbbbbbbbbbbbbbbbbbbbbbbbbbbbbbbbbbbbbbbbbbbbbbbbbbbbbbbbbbbbbbbbbbbbbbbbbbbbbbbbbbbbbbbbbbbbbbbbbbbbbbbbbbbbbbbbbbbbbbbbbbbbbbbbbbbbbbbbbbbbbbbbbbbbbbbbbbbbbbbbbbbbbbbbbbbbbbbbbbbbbbbbbbbbbbbbbbbbbbbbbbbbb"]]]) ∧
    scrape_content "u" (FetchOutcome.success [Node.elem "main" [Node.elem "p"
        [Node.text "bbbbbbbbbbbbbbbbbbbbbbbbbbbbbbbbbbbbbbbbbbbbbbbbbbbbbbbbbbbbbbbbbbbbbbbbbbbbbbbbbbbbbbbbbbbbbbbbbbbbbbbbbbbbbbbbbbbbbbbbbbbbbbbbbbbbbbbbbbbbbbbbbbbbbbbbbbbbbbbbbbbbbbbbbbbbbbbbbbbbbbbbbbbbbbbbbbbbbbbbbbbbbbbb"]]])
      = pyTake (String.intercalate "\n"
          (((allTagIn "p" (Node.elem "main" [Node.elem "p"
            [Node.text "bbbbbbbbbbbbbbbbbbbbbbbbbbbbbbbbbbbbbbbbbbbbbbbbbbbbbbbbbbbbbbbbbbbbbbbbbbbbbbbbbbbbbbbbbbbbbbbbbbbbbbbbbbbbbbbbbbbbbbbbbbbbbbbbbbbbbbbbbbbbbbbbbbbbbbbbbbbbbbbbbbbbbbbbbbbbbbbbbbbbbbbbbbbbbbbbbbbbbbbbbbbbbbbb"]])).map (getTextStrip "")).filter
            (fun s => 50 < s.length))) 4000 :=
  scrape_region_order_and_filter "u"
    [Node.elem "main" [Node.elem "p"
      [Node.text "bbbbbbbbbbbbbbbbbbbbbbbbbbbbbbbbbbbbbbbbbbbbbbbbbbbbbbbbbbbbbbbbbbbbbbbbbbbbbbbbbbbbbbbbbbbbbbbbbbbbbbbbbbbbbbbbbbbbbbbbbbbbbbbbbbbbbbbbbbbbbbbbbbbbbbbbbbbbbbbbbbbbbbbbbbbbbbbbbbbbbbbbbbbbbbbbbbbbbbbbbbbbbbbb"]]]
    (Node.elem "main" [Node.elem "p"
      [Node.text "bbbbbbbbbbbbbbbbbbbbbbbbbbbbbbbbbbbbbbbbbbbbbbbbbbbbbbbbbbbbbbbbbbbbbbbbbbbbbbbbbbbbbbbbbbbbbbbbbbbbbbbbbbbbbbbbbbbbbbbbbbbbbbbbbbbbbbbbbbbbbbbbbbbbbbbbbbbbbbbbbbbbbbbbbbbbbbbbbbbbbbbbbbbbbbbbbbbbbbbbbbbbbbbb"]])
    rfl (by decide)

/-- C7: for a generative response whose trimmed text is a JSON object
(first character an opening brace, last a closing brace), `generate_quiz`
produces the same result whether or not the response is wrapped in a
markdown code fence: the cleaning step maps both forms to the same string
before `json.loads` runs, so a valid four-key quiz parses identically. -/
theorem generate_quiz_fence_agnostic (p : String → Option JValue) (s : String)
    (mid : List Char) (hs : s.toList = braceOpen :: (mid ++ [braceClose]))
    (j : JValue) (hp : p s = some j) (hv : quizCheckResult j = some true) :
    generate_quiz (Except.ok ("```json\n" ++ s ++ "\n```")) p = some j ∧
    generate_quiz (Except.ok s) p = some j := by
  constructor
  · simp only [generate_quiz, pyClean_fenced s mid hs, hp, hv]
  · simp only [generate_quiz, pyClean_brace_shape s mid hs, hp, hv]

/-- Witness for C7 on a concrete four-key quiz JSON object, with a parser
oracle defined on exactly that cleaned string. -/
theorem generate_quiz_fence_agnostic_witness :
    generate_quiz (Except.ok ("```json\n"
        ++ "\x7b\"question\":\"Q\",\"options\":[\"A\",\"B\",\"C\",\"D\"],\"answer\":\"B\",\"explanation\":\"E\"\x7d"
        ++ "\n```"))
      (fun t =>
        if t = "\x7b\"question\":\"Q\",\"options\":[\"A\",\"B\",\"C\",\"D\"],\"answer\":\"B\",\"explanation\":\"E\"\x7d"
        then some (JValue.obj [("question", JValue.str "Q"),
          ("options", JValue.arr [JValue.str "A", JValue.str "B", JValue.str "C", JValue.str "D"]),
          ("answer", JValue.str "B"), ("explanation", JValue.str "E")])
        else none)
      = some (JValue.obj [("question", JValue.str "Q"),
          ("options", JValue.arr [JValue.str "A", JValue.str "B", JValue.str "C", JValue.str "D"]),
          ("answer", JValue.str "B"), ("explanation", JValue.str "E")]) ∧
    generate_quiz (Except.ok
        "\x7b\"question\":\"Q\",\"options\":[\"A\",\"B\",\"C\",\"D\"],\"answer\":\"B\",\"explanation\":\"E\"\x7d")
      (fun t =>
        if t = "\x7b\"question\":\"Q\",\"options\":[\"A\",\"B\",\"C\",\"D\"],\"answer\":\"B\",\"explanation\":\"E\"\x7d"
        then some (JValue.obj [("question", JValue.str "Q"),
          ("options", JValue.arr [JValue.str "A", JValue.str "B", JValue.str "C", JValue.str "D"]),
          ("answer", JValue.str "B"), ("explanation", JValue.str "E")])
        else none)
      = some (JValue.obj [("question", JValue.str "Q"),
          ("options", JValue.arr [JValue.str "A", JValue.str "B", JValue.str "C", JValue.str "D"]),
          ("answer", JValue.str "B"), ("explanation", JValue.str "E")]) :=
  generate_quiz_fence_agnostic
    (fun t =>
      if t = "\x7b\"question\":\"Q\",\"options\":[\"A\",\"B\",\"C\",\"D\"],\"answer\":\"B\",\"explanation\":\"E\"\x7d"
      then some (JValue.obj [("question", JValue.str "Q"),
        ("options", JValue.arr [JValue.str "A", JValue.str "B", JValue.str "C", JValue.str "D"]),
        ("answer", JValue.str "B"), ("explanation", JValue.str "E")])
      else none)
    "\x7b\"question\":\"Q\",\"options\":[\"A\",\"B\",\"C\",\"D\"],\"answer\":\"B\",\"explanation\":\"E\"\x7d"
    (("\x7b\"question\":\"Q\",\"options\":[\"A\",\"B\",\"C\",\"D\"],\"answer\":\"B\",\"explanation\":\"E\"\x7d".toList.drop 1).dropLast)
    (by decide)
    (JValue.obj [("question", JValue.str "Q"),
      ("options", JValue.arr [JValue.str "A", JValue.str "B", JValue.str "C", JValue.str "D"]),
      ("answer", JValue.str "B"), ("explanation", JValue.str "E")])
    (by rfl) (by rfl)

theorem allKeysIn_obj (fs : List (String × JValue)) :
    allKeysIn (JValue.obj fs)
      = some (fs.any (fun f => f.1 == "question") && fs.any (fun f => f.1 == "options")
          && fs.any (fun f => f.1 == "answer") && fs.any (fun f => f.1 == "explanation")) := by
  simp only [allKeysIn, pyIn]
  cases h1 : fs.any (fun f => f.1 == "question") <;>
    cases h2 : fs.any (fun f => f.1 == "options") <;>
      cases h3 : fs.any (fun f => f.1 == "answer") <;>
        cases h4 : fs.any (fun f => f.1 == "explanation") <;> simp [h1, h2, h3, h4]

/-- C8: a generative response that is malformed JSON (`json.loads`
raises), or parses to an object missing one of the keys `question`,
`options`, `answer`, `explanation`, or whose `options` value does not
have length 4, makes `generate_quiz` return `None`, and the session-state
transition for such a quiz-generation attempt stores nothing. -/
theorem generate_quiz_invalid_returns_none (text : String)
    (p : String → Option JValue) (st : SessionState) (i : Nat)
    (h : p (pyClean text) = none ∨
      ∃ fs, p (pyClean text) = some (JValue.obj fs) ∧
        (fs.any (fun f => f.1 == "question") = false ∨
          fs.any (fun f => f.1 == "options") = false ∨
          fs.any (fun f => f.1 == "answer") = false ∨
          fs.any (fun f => f.1 == "explanation") = false ∨
          (pyGetItem (JValue.obj fs) "options").bind pyLen ≠ some 4)) :
    generate_quiz (Except.ok text) p = none ∧
    step st (Event.genQuiz i (generate_quiz (Except.ok text) p)) = st := by
  have hq : generate_quiz (Except.ok text) p = none := by
    rcases h with h | ⟨fs, hfs, hbad⟩
    · simp [generate_quiz, h]
    · simp only [generate_quiz, hfs]
      rcases hbad with hk | hk | hk | hk | hopt
      · simp [quizCheckResult, allKeysIn_obj, hk]
      · simp [quizCheckResult, allKeysIn_obj, hk]
      · simp [quizCheckResult, allKeysIn_obj, hk]
      · simp [quizCheckResult, allKeysIn_obj, hk]
      · cases hall : (fs.any (fun f => f.1 == "question") && fs.any (fun f => f.1 == "options")
            && fs.any (fun f => f.1 == "answer") && fs.any (fun f => f.1 == "explanation")) with
        | false => simp [quizCheckResult, allKeysIn_obj, hall]
        | true =>
          cases hg : pyGetItem (JValue.obj fs) "options" with
          | none => simp [quizCheckResult, allKeysIn_obj, hall, hg]
          | some opts =>
            rw [hg] at hopt
            cases hl : pyLen opts with
            | none => simp [quizCheckResult, allKeysIn_obj, hall, hg, hl]
            | some l =>
              have hlne : l ≠ 4 := by
                intro hcontra
                apply hopt
                simp [hl, hcontra]
              simp [quizCheckResult, allKeysIn_obj, hall, hg, hl, hlne]
  exact ⟨hq, by simp [step, hq]⟩

/-- Witness for C8: a parser oracle that raises on the cleaned text makes
`generate_quiz` return `None` and leaves the initial session state
untouched. -/
theorem generate_quiz_invalid_returns_none_witness :
    generate_quiz (Except.ok "not json") (fun _ => none) = none ∧
    step initialState
      (Event.genQuiz 0 (generate_quiz (Except.ok "not json") (fun _ => none)))
      = initialState :=
  generate_quiz_invalid_returns_none "not json" (fun _ => none) initialState 0
    (Or.inl rfl)

/-- C2 (bug run): within one session, history items are inserted at the
front of `search_history`, but quiz keys are history *positions*: after
searching "qA", generating a quiz for the item at index 0 ("qA"), and
then searching "qB", the list is `["qB", "qA"]` while the stored quiz is
still under key 0 — now the position of "qB" — and index 1 ("qA", the
item the quiz was generated from) has no quiz. The index-to-quiz
association is therefore not stable under later searches. -/
theorem history_quiz_index_misassociation :
    (step (step (step initialState (Event.search ⟨"qA", "sumA", []⟩))
          (Event.genQuiz 0 (some (JValue.str "quizForA"))))
        (Event.search ⟨"qB", "sumB", []⟩)).search_history
      = [⟨"qB", "sumB", []⟩, ⟨"qA", "sumA", []⟩] ∧
    ((step (step (step initialState (Event.search ⟨"qA", "sumA", []⟩))
          (Event.genQuiz 0 (some (JValue.str "quizForA"))))
        (Event.search ⟨"qB", "sumB", []⟩)).quizzes).lookup 0
      = some (JValue.str "quizForA") ∧
    ((step (step (step initialState (Event.search ⟨"qA", "sumA", []⟩))
          (Event.genQuiz 0 (some (JValue.str "quizForA"))))
        (Event.search ⟨"qB", "sumB", []⟩)).quizzes).lookup 1
      = none := by
  exact ⟨rfl, rfl, rfl⟩
